import Mathlib

/-!
Verification of the FY2026 DoD budget downloader script
(`download_fy2026_budget.py`).

The script is sequential, synchronous I/O glue: four static manifests of
budget files, one generic `download_file` routine invoked in a loop, a
0.3-second sleep after every attempt, and a success/failure tally.

We shallowly embed the script.  Python strings become Lean `String`s,
byte strings become `List Nat`, and the effectful steps of one
`download_file` call (directory creation, request construction, the HTTP
request plus body read, opening and writing the destination file) are
resolved by an explicit environment `DLEnv`.  A run of `main` is a fold
over the manifest that threads counters, the failure list, and an event
trace recording directory creations, request attempts, file writes and
sleeps.
-/

/-! ### String helpers mirroring the Python standard library -/

/-- The characters stripped by `safe_filename`, in the order the source
iterates over the raw string `\/:*?"<>|`. -/
def ILLEGAL_CHARS : List Char := ['\\', '/', ':', '*', '?', '"', '<', '>', '|']

/-- `safe_filename(name)` from the source: for each character of
`\/:*?"<>|` in turn, replace every occurrence in `name` by `_`
(`str.replace` with a single-character pattern is a character map). -/
def safe_filename (name : String) : String :=
  ILLEGAL_CHARS.foldl
    (fun acc ch => String.mk (acc.data.map (fun c => if c = ch then '_' else c))) name

/-- UTF-8 encoding of one character, as byte values. -/
def utf8Bytes (c : Char) : List Nat :=
  let n := c.toNat
  if n < 0x80 then [n]
  else if n < 0x800 then
    [0xC0 ||| (n >>> 6), 0x80 ||| (n &&& 0x3F)]
  else if n < 0x10000 then
    [0xE0 ||| (n >>> 12), 0x80 ||| ((n >>> 6) &&& 0x3F), 0x80 ||| (n &&& 0x3F)]
  else
    [0xF0 ||| (n >>> 18), 0x80 ||| ((n >>> 12) &&& 0x3F),
     0x80 ||| ((n >>> 6) &&& 0x3F), 0x80 ||| (n &&& 0x3F)]

/-- Characters that `urllib.parse.quote` leaves unencoded with its default
`safe='/'`: ASCII letters and digits, `_.-~`, and the slash. -/
def quoteKeeps (c : Char) : Bool :=
  c.isAlpha || c.isDigit || c == '_' || c == '.' || c == '-' || c == '~' || c == '/'

/-- Upper-case hexadecimal digit for a value below 16. -/
def hexUpper (n : Nat) : Char :=
  if n < 10 then Char.ofNat (48 + n) else Char.ofNat (55 + n)

/-- `%XX` percent-encoding of one byte. -/
def percentEncodeByte (b : Nat) : List Char :=
  ['%', hexUpper (b / 16), hexUpper (b % 16)]

/-- `urllib.parse.quote(s)` with the default safe set: every character kept
by `quoteKeeps` passes through, every other character is UTF-8 encoded and
each byte rendered as `%XX`. -/
def quote (s : String) : String :=
  String.mk (s.data.foldr
    (fun c acc =>
      (if quoteKeeps c then [c]
       else (utf8Bytes c).foldr (fun b a => percentEncodeByte b ++ a) []) ++ acc) [])

/-- Drop trailing `/` characters. -/
def dropTrailingSlashes (cs : List Char) : List Char :=
  (cs.reverse.dropWhile (fun c => c = '/')).reverse

/-- Index just past the last `/` of the list, or `0` when there is none
(`p.rfind('/') + 1` in the Python implementation of `posixpath.dirname`). -/
def lastSlashEnd (cs : List Char) : Nat :=
  match cs.reverse.findIdx? (fun c => c = '/') with
  | some k => cs.length - k
  | none => 0

/-- `os.path.dirname` (POSIX): everything up to the last slash, with
trailing slashes stripped unless the head is all slashes. -/
def dirname (p : String) : String :=
  let head := p.data.take (lastSlashEnd p.data)
  if head ≠ [] ∧ ¬ head.all (fun c => c = '/') then String.mk (dropTrailingSlashes head)
  else String.mk head

/-- One step of `os.path.join` (POSIX): an absolute component restarts the
path, otherwise a `/` is inserted unless already present. -/
def joinOne (a b : String) : String :=
  if b.data.head? = some '/' then b
  else if a.data = [] ∨ a.data.getLast? = some '/' then String.mk (a.data ++ b.data)
  else String.mk (a.data ++ '/' :: b.data)

/-- `os.path.join` over a head component and a list of further components. -/
def osPathJoin (a : String) (rest : List String) : String :=
  rest.foldl joinOne a

/-- Split a path into its `/`-separated components. -/
def splitSlash : List Char → List (List Char)
  | [] => [[]]
  | c :: rest =>
    let r := splitSlash rest
    if c = '/' then [] :: r
    else
      match r with
      | h :: t => (c :: h) :: t
      | [] => [[c]]

/-- The `/`-separated components of a path, as strings. -/
def pathComponents (p : String) : List String :=
  (splitSlash p.data).map String.mk

/-! ### The static configuration of the script -/

def OUTPUT_DIR : String := "fy2026_budget"

def ARMY_BASE : String :=
  "https://www.asafm.army.mil/Portals/72/Documents/BudgetMaterial/2026/Discretionary%20Budget"

def AF_BASE : String :=
  "https://www.saffm.hq.af.mil/Portals/84/documents/FY26"

def DW_BASE : String :=
  "https://comptroller.war.gov/Portals/45/Documents/defbudget/FY2026/budget_justification/pdfs"

/-- `ARMY_FILES`: (category, filename, extension) triples. -/
def ARMY_FILES : List (String × String × String) := [
  ("Military Personnel", "Military Personnel Army Volume 1", "xml"),
  ("Military Personnel", "Reserve Personnel Army Volume 1", "xml"),
  ("Military Personnel", "National Guard Personnel Army Volume 1", "xml"),
  ("Operation and Maintenance", "Regular Army Operation and Maintenance Volume 1", "json"),
  ("Operation and Maintenance", "Regular Army Operation and Maintenance Volume 2", "json"),
  ("Operation and Maintenance", "Reserve Army Operation and Maintenance Overview", "xml"),
  ("Operation and Maintenance", "Reserve Army Operation and Maintenance", "xml"),
  ("Operation and Maintenance", "National Guard Army Operation and Maintenance Overview", "xml"),
  ("Operation and Maintenance", "National Guard Army Operation and Maintenance", "xml"),
  ("Procurement", "Aircraft Procurement Army", "xml"),
  ("Procurement", "Missile Procurement Army", "xml"),
  ("Procurement", "Other Procurement - BA1 - Tactical & Support Vehicles", "xml"),
  ("Procurement", "Other Procurement - BA2 - Communications & Electronics", "xml"),
  ("Procurement", "Other Procurement - BA 3, 4 & 6 - Other Support Equipment, Initial Spares and Agile Portfolio Management", "xml"),
  ("Procurement", "Procurement of Ammunition", "xml"),
  ("Procurement", "Procurement of Weapons and Tracked Combat Vehicles", "xml"),
  ("rdte", "RDTE - Vol 1 - Budget Activity 1", "xml"),
  ("rdte", "RDTE - Vol 1 - Budget Activity 2", "xml"),
  ("rdte", "RDTE - Vol 1 - Budget Activity 3", "xml"),
  ("rdte", "RDTE - Vol 2 - Budget Activity 4A", "xml"),
  ("rdte", "RDTE - Vol 2 - Budget Activity 4B", "xml"),
  ("rdte", "RDTE - Vol 3 - Budget Activity 5A", "xml"),
  ("rdte", "RDTE - Vol 3 - Budget Activity 5B", "xml"),
  ("rdte", "RDTE - Vol 3 - Budget Activity 5C", "xml"),
  ("rdte", "RDTE - Vol 3 - Budget Activity 5D", "xml"),
  ("rdte", "RDTE - Vol 4 - Budget Activity 6", "xml"),
  ("rdte", "RDTE - Vol 4 - Budget Activity 7", "xml"),
  ("rdte", "RDTE - Vol 4 - Budget Activity 8", "xml"),
  ("rdte", "RDTE - Vol 4 - Budget Activity 9", "xml"),
  ("Military Construction", "Regular Army Military Construction, Army Family Housing and Homeowners Assistance", "xml"),
  ("Military Construction", "Reserve Army Military Construction", "xml"),
  ("Military Construction", "National Guard Army Military Construction", "xml"),
  ("Military Construction", "Base Realignment and Closure Account", "xml"),
  ("awcf", "Army Working Capital Fund", "xml"),
  ("camdd", "Chemical Agents and Munitions Destruction, Defense", "xml"),
  ("U.S. Army Cemeterial Expenses and Construction",
   "U.S. Army Cemeterial Expenses and Construction", "xml"),
  ("Other Funds", "Counter-Islamic State of Iraq and Syria Train and Equip Fund", "xml")]

/-- `AF_FILES`: (category, filename, extension) triples. -/
def AF_FILES : List (String × String × String) := [
  ("BRAC", "FY26 Base Realignment and Closure", "xml"),
  ("MILCON", "FY26 Air Force MILCON", "xml"),
  ("MILCON", "FY26 Air National Guard MILCON", "xml"),
  ("MILCON", "FY26 Air Force Reserve MILCON", "xml"),
  ("MILPERS", "FY26 Air Force MILPERS", "xml"),
  ("MILPERS", "FY26 Air National Guard MILPERS", "xml"),
  ("MILPERS", "FY26 Air Force Reserves MILPERS", "xml"),
  ("MILPERS", "FY26 Space Force MILPERS", "xml"),
  ("O&M", "FY26 Air Force Operations and Maintenance Vol I", "xml"),
  ("O&M", "FY26 Air Force Operations and Maintenance Vol II", "xml"),
  ("O&M", "FY26 Air National Guard Operation and Maintenance Vol I", "xml"),
  ("O&M", "FY26 Air National Guard Operation and Maintenance Vol II", "xml"),
  ("O&M", "FY26 Air Force Reserve Operations and Maintenance Vol I", "xml"),
  ("O&M", "FY26 Air Force Reserve Operations and Maintenance Vol II", "xml"),
  ("O&M", "FY26 Space Force Operations and Maintenance Vol I", "xml"),
  ("O&M", "FY26 Space Force Operations and Maintenance Vol II", "xml"),
  ("Procurement", "FY26 Air Force Aircraft Procurement Vol I", "xml"),
  ("Procurement", "FY26 Air Force Aircraft Procurement Vol II", "xml"),
  ("Procurement", "FY26 Air Force Ammunition Procurement", "xml"),
  ("Procurement", "FY26 Air Force Missile Procurement", "xml"),
  ("Procurement", "FY26 Air Force Other Procurement", "xml"),
  ("Procurement", "FY26 Space Force Procurement", "xml"),
  ("RDTE", "FY26 Air Force Research and Development Test and Evaluation Vol I", "xml"),
  ("RDTE", "FY26 Air Force Research and Development Test and Evaluation Vol II", "xml"),
  ("RDTE", "FY26 Air Force Research and Development Test and Evaluation Vol III", "xml"),
  ("RDTE", "FY26 Space Force Research and Development Test and Evaluation Vol I", "xml"),
  ("RDTE", "FY26 Space Force Research and Development Test and Evaluation Vol II", "xml")]

/-- `DW_FILES`: (category, url path, filename, extension) 4-tuples. -/
def DW_FILES : List (String × String × String × String) := [
  ("O&M", "01_Operation_and_Maintenance/O_M_VOL_1_PART_1", "OM_Volume1_Part1", "json"),
  ("O&M", "01_Operation_and_Maintenance/O_M_VOL_1_PART_2", "OM_Volume1_Part_2", "json"),
  ("O&M", "01_Operation_and_Maintenance/O_M_VOL_2", "Volume_2", "json"),
  ("O&M_Agencies", "01_Operation_and_Maintenance/O_M_VOL_1_PART_1", "Overview_(Part_1)", "json"),
  ("O&M_Agencies", "01_Operation_and_Maintenance/O_M_VOL_1_PART_1", "Summary_by_Agency_(Part_1)", "json"),
  ("O&M_Agencies", "01_Operation_and_Maintenance/O_M_VOL_1_PART_1", "O-1_Summary_(Part_1)", "json"),
  ("O&M_Agencies", "01_Operation_and_Maintenance/O_M_VOL_1_PART_1", "OP-32A_Summary_(Part_1)", "json"),
  ("O&M_Agencies", "01_Operation_and_Maintenance/O_M_VOL_1_PART_1", "CMP_OP-5", "json"),
  ("O&M_Agencies", "01_Operation_and_Maintenance/O_M_VOL_1_PART_1", "CYBERCOM_OP-5", "json"),
  ("O&M_Agencies", "01_Operation_and_Maintenance/O_M_VOL_1_PART_1", "CYBERCOM_Headquarters_OP-5", "json"),
  ("O&M_Agencies", "01_Operation_and_Maintenance/O_M_VOL_1_PART_1", "Cyberspace_Operations_OP-5", "json"),
  ("O&M_Agencies", "01_Operation_and_Maintenance/O_M_VOL_1_PART_1", "DAU_OP-5", "json"),
  ("O&M_Agencies", "01_Operation_and_Maintenance/O_M_VOL_1_PART_1", "DCAA_Cyber_OP-5", "json"),
  ("O&M_Agencies", "01_Operation_and_Maintenance/O_M_VOL_1_PART_1", "DCAA_OP-5", "json"),
  ("O&M_Agencies", "01_Operation_and_Maintenance/O_M_VOL_1_PART_1", "DCMA_Cyber_OP-5", "json"),
  ("O&M_Agencies", "01_Operation_and_Maintenance/O_M_VOL_1_PART_1", "DCMA_OP-5", "json"),
  ("O&M_Agencies", "01_Operation_and_Maintenance/O_M_VOL_1_PART_1", "DCSA_Cyber_OP-5", "json"),
  ("O&M_Agencies", "01_Operation_and_Maintenance/O_M_VOL_1_PART_1", "DCSA_OP-5", "json"),
  ("O&M_Agencies", "01_Operation_and_Maintenance/O_M_VOL_1_PART_1", "DHRA_Cyber_OP-5", "json"),
  ("O&M_Agencies", "01_Operation_and_Maintenance/O_M_VOL_1_PART_1", "DHRA_OP-5", "json"),
  ("O&M_Agencies", "01_Operation_and_Maintenance/O_M_VOL_1_PART_1", "DISA_Cyber_OP-5", "json"),
  ("O&M_Agencies", "01_Operation_and_Maintenance/O_M_VOL_1_PART_1", "DISA_OP-5", "json"),
  ("O&M_Agencies", "01_Operation_and_Maintenance/O_M_VOL_1_PART_1", "DLA_OP-5", "json"),
  ("O&M_Agencies", "01_Operation_and_Maintenance/O_M_VOL_1_PART_1", "DLSA_OP-5", "json"),
  ("BRAC", "05_BRAC", "FY2026_BRAC_Overview", "xml")]

/-- `DOD_SUMMARY`: (full url, subfolder, output filename) triples. -/
def DOD_SUMMARY : List (String × String × String) := [
  ("https://comptroller.war.gov/Portals/45/Documents/defbudget/FY2026/m1_display.xlsx",
   "DoD_Summary", "FY2026_M1_Military_Personnel.xlsx"),
  ("https://comptroller.war.gov/Portals/45/Documents/defbudget/FY2026/o1_display.xlsx",
   "DoD_Summary", "FY2026_O1_Operation_Maintenance.xlsx"),
  ("https://comptroller.war.gov/Portals/45/Documents/defbudget/FY2026/rf1_display.xlsx",
   "DoD_Summary", "FY2026_RF1_Revolving_Management_Fund.xlsx"),
  ("https://comptroller.war.gov/Portals/45/Documents/defbudget/FY2026/p1_display.xlsx",
   "DoD_Summary", "FY2026_P1_Procurement.xlsx"),
  ("https://comptroller.war.gov/Portals/45/Documents/defbudget/FY2026/p1r_display.xlsx",
   "DoD_Summary", "FY2026_P1R_Procurement_Reserve.xlsx"),
  ("https://comptroller.war.gov/Portals/45/Documents/defbudget/FY2026/r1_display.xlsx",
   "DoD_Summary", "FY2026_R1_RDTE.xlsx"),
  ("https://comptroller.war.gov/Portals/45/Documents/defbudget/FY2026/c1.xlsx",
   "DoD_Summary", "FY2026_C1_MilCon_FamilyHousing_BRAC.xlsx"),
  ("https://comptroller.war.gov/Portals/45/Documents/defbudget/FY2026/FY2026_Pacific_Deterrence_Initiative.json",
   "DoD_Summary", "FY2026_Pacific_Deterrence_Initiative.json"),
  ("https://comptroller.war.gov/Portals/45/Documents/defbudget/FY2026/FY2026_Drug_Interdiction_and_Counter-Drug_Activities.json",
   "DoD_Summary", "FY2026_Drug_Interdiction_Counter_Drug.json")]

/-! ### Manifest entries as the loops of `main` consume them -/

/-- One manifest entry, tagged by which of the four loops of `main`
consumes it.  The constructors record the exact tuple shapes of the four
source lists. -/
inductive ManifestEntry where
  | army (category filename ext : String)
  | af (category filename ext : String)
  | dw (category path filename ext : String)
  | dod (url subfolder fname : String)
deriving DecidableEq

/-- The combined work list of `main`: Army, then Air Force, then
Defense-Wide, then DoD Summary, each in list order. -/
def allEntries : List ManifestEntry :=
  ARMY_FILES.map (fun t => ManifestEntry.army t.1 t.2.1 t.2.2) ++
  AF_FILES.map (fun t => ManifestEntry.af t.1 t.2.1 t.2.2) ++
  DW_FILES.map (fun t => ManifestEntry.dw t.1 t.2.1 t.2.2.1 t.2.2.2) ++
  DOD_SUMMARY.map (fun t => ManifestEntry.dod t.1 t.2.1 t.2.2)

/-- The request URL built for an entry, exactly as in `main`. -/
def entryUrl : ManifestEntry → String
  | .army c f x => ARMY_BASE ++ "/" ++ quote (c ++ "/" ++ f ++ "." ++ x)
  | .af _ f x => AF_BASE ++ "/" ++ quote (f ++ "." ++ x)
  | .dw _ p f x => DW_BASE ++ "/" ++ p ++ "/" ++ f ++ "." ++ x
  | .dod u _ _ => u

/-- The destination path built for an entry, exactly as in `main`. -/
def entryOutPath : ManifestEntry → String
  | .army c f x =>
    osPathJoin OUTPUT_DIR ["Army", safe_filename c, safe_filename f ++ "." ++ x]
  | .af c f x =>
    osPathJoin OUTPUT_DIR ["AirForce", safe_filename c, safe_filename f ++ "." ++ x]
  | .dw c _ f x =>
    osPathJoin OUTPUT_DIR ["DefenseWide", safe_filename c, safe_filename f ++ "." ++ x]
  | .dod _ s f => osPathJoin OUTPUT_DIR [s, f]

/-- The label used for printing and for the failure records. -/
def entryLabel : ManifestEntry → String
  | .army c f x => "Army/" ++ c ++ "/" ++ f ++ "." ++ x
  | .af c f x => "AF/" ++ c ++ "/" ++ f ++ "." ++ x
  | .dw c _ f x => "DW/" ++ c ++ "/" ++ f ++ "." ++ x
  | .dod _ _ f => f

/-! ### Exceptions and the effect environment of one `download_file` call -/

/-- The exception taxonomy visible to `download_file`'s handlers:
`urllib.error.HTTPError` (carrying the status code), `urllib.error.URLError`
(carrying the stringified reason), and any other `Exception` (carrying its
string form).  In Python, `HTTPError` is a subclass of `URLError`, which is
a subclass of `Exception`; the three `except` clauses are tried in order,
so each raised exception is handled by the first (and only first) matching
clause. -/
inductive Exn where
  | httpError (code : Nat)
  | urlError (reason : String)
  | other (msg : String)
deriving DecidableEq

/-- The message each handler of `download_file` produces:
`f"HTTP {e.code}"`, `str(e.reason)`, or `str(e)`. -/
def excMsg : Exn → String
  | .httpError c => "HTTP " ++ toString c
  | .urlError r => r
  | .other m => m

/-- Which of the three `except` clauses match an exception, in clause
order (`HTTPError`, `URLError`, bare `Exception`), following Python's
subclass relation. -/
def handlerMatches : Exn → List Bool
  | .httpError _ => [true, true, true]
  | .urlError _ => [false, true, true]
  | .other _ => [false, false, true]

/-- Index of the clause that actually catches an exception: the first
matching one. -/
def catchingHandler (ex : Exn) : Nat :=
  (handlerMatches ex).findIdx (fun b => b)

/-- Resolution of the effectful steps of one `download_file` call.
`makedirsExn` and `requestExn` are exceptions raised by `os.makedirs` and
by the `Request` constructor — both run before the `try` block.
`openResult` is the outcome of `urlopen` plus `resp.read()` (the body
bytes on success).  `openExn` is an exception raised by
`open(dest_path, "wb")`, and `writeExn` one raised by `f.write(data)`. -/
structure DLEnv where
  makedirsExn : Option Exn
  requestExn : Option Exn
  openResult : Except Exn (List Nat)
  openExn : Option Exn
  writeExn : Option Exn

/-- Observable events of one run: directory creation, a `urlopen` request
attempt, opening the destination for writing, a completed write of the
given bytes, an invocation of `download_file` (recorded by `main`'s loop),
and a `time.sleep`. -/
inductive DLEvent where
  | mkdir (dir : String)
  | call (url : String) (dest : String)
  | request (url : String)
  | openWrite (path : String)
  | write (path : String) (data : List Nat)
  | sleep (seconds : ℚ)
deriving DecidableEq

/-- The argument of every `time.sleep` call in `main`. -/
def SLEEP_INTERVAL : ℚ := 3 / 10

/-- The success message `f"{size_kb:.1f} KB"` for a body of `n` bytes,
where `size_kb = n / 1024`.  The source formats a binary float; we model
the division and one-decimal rounding exactly over the rationals. -/
def sizeMsg (n : Nat) : String :=
  let tenths := (n * 10 + 512) / 1024
  toString (tenths / 10) ++ "." ++ toString (tenths % 10) ++ " KB"

/-- `download_file(url, dest_path)`: create the parent directory, build
the request (both before the `try` block, so exceptions there escape as
`Except.error`), then inside `try`: perform the request and read the body,
open the destination and write the body verbatim.  Any exception inside
the `try` is turned into `(False, message)` by the first matching handler.
Returns the `(success, message)` pair (or the escaping exception) together
with the list of observable events. -/
def download_file (env : DLEnv) (url dest_path : String) :
    Except Exn (Bool × String) × List DLEvent :=
  match env.makedirsExn with
  | some ex => (Except.error ex, [])
  | none =>
    match env.requestExn with
    | some ex => (Except.error ex, [DLEvent.mkdir (dirname dest_path)])
    | none =>
      match env.openResult with
      | Except.error ex =>
        (Except.ok (false, excMsg ex),
         [DLEvent.mkdir (dirname dest_path), DLEvent.request url])
      | Except.ok data =>
        match env.openExn with
        | some ex =>
          (Except.ok (false, excMsg ex),
           [DLEvent.mkdir (dirname dest_path), DLEvent.request url])
        | none =>
          match env.writeExn with
          | some ex =>
            (Except.ok (false, excMsg ex),
             [DLEvent.mkdir (dirname dest_path), DLEvent.request url,
              DLEvent.openWrite dest_path])
          | none =>
            (Except.ok (true, sizeMsg data.length),
             [DLEvent.mkdir (dirname dest_path), DLEvent.request url,
              DLEvent.openWrite dest_path, DLEvent.write dest_path data])

/-- The `(success, message)` pair `download_file` returns when the steps
preceding the `try` block succeed. -/
def entryOutcome (env : DLEnv) : Bool × String :=
  match env.openResult with
  | Except.error ex => (false, excMsg ex)
  | Except.ok data =>
    match env.openExn with
    | some ex => (false, excMsg ex)
    | none =>
      match env.writeExn with
      | some ex => (false, excMsg ex)
      | none => (true, sizeMsg data.length)

/-- The steps of `download_file` that run before its `try` block raise no
exception. -/
def noProp (env : DLEnv) : Prop :=
  env.makedirsExn = none ∧ env.requestExn = none

/-! ### The `main` loop -/

/-- The mutable state of `main`: the two counters, the `failures` list of
`(label, url, message)` records, and the accumulated event trace. -/
structure RunState where
  success_count : Nat
  fail_count : Nat
  failures : List (String × String × String)
  events : List DLEvent

/-- The state of `main` before the first loop iteration. -/
def initState : RunState :=
  { success_count := 0, fail_count := 0, failures := [], events := [] }

/-- The download loops of `main`, over a list of entries.  The world `w`
resolves the effects of the `i`-th `download_file` call.  Each iteration
records the invocation, runs `download_file`, bumps exactly one counter
(appending one failure record on failure), and sleeps `SLEEP_INTERVAL`.
An exception escaping `download_file` aborts the run (second component
`some ex`), exactly as an uncaught exception aborts the script. -/
def runList (w : Nat → DLEnv) : Nat → RunState → List ManifestEntry →
    RunState × Option Exn
  | _, st, [] => (st, none)
  | i, st, e :: rest =>
    let url := entryUrl e
    let dest := entryOutPath e
    match download_file (w i) url dest with
    | (Except.error ex, tr) =>
      ({ st with events := st.events ++ DLEvent.call url dest :: tr }, some ex)
    | (Except.ok (ok, msg), tr) =>
      let st' :=
        if ok then
          { st with
            success_count := st.success_count + 1,
            events := st.events ++ DLEvent.call url dest :: tr ++
              [DLEvent.sleep SLEEP_INTERVAL] }
        else
          { st with
            fail_count := st.fail_count + 1,
            failures := st.failures ++ [(entryLabel e, url, msg)],
            events := st.events ++ DLEvent.call url dest :: tr ++
              [DLEvent.sleep SLEEP_INTERVAL] }
      runList w (i + 1) st' rest

/-- A full run of `main`'s download loops over the four manifests. -/
def mainRun (w : Nat → DLEnv) : RunState × Option Exn :=
  runList w 0 initState allEntries

/-! ### Projections of the trace -/

/-- The `(url, dest_path)` arguments of the `download_file` invocations
recorded in a trace. -/
def callsOf (tr : List DLEvent) : List (String × String) :=
  tr.filterMap (fun ev =>
    match ev with
    | DLEvent.call u d => some (u, d)
    | _ => none)

/-- The `(path, bytes)` pairs of the completed file writes in a trace. -/
def writesOf (tr : List DLEvent) : List (String × List Nat) :=
  tr.filterMap (fun ev =>
    match ev with
    | DLEvent.write p data => some (p, data)
    | _ => none)

/-- The sleep durations occurring in a trace. -/
def sleepsOf (tr : List DLEvent) : List ℚ :=
  tr.filterMap (fun ev =>
    match ev with
    | DLEvent.sleep q => some q
    | _ => none)

/-- One step of the sleep-separation check.  The state is `some owing`
where `owing` records that an invocation has happened with no sleep since,
or `none` once the discipline has been violated: two invocations with no
sleep between them, or a sleep of the wrong duration. -/
def sleepStep : Option Bool → DLEvent → Option Bool
  | none, _ => none
  | some owing, DLEvent.call _ _ => if owing then none else some true
  | some _, DLEvent.sleep q => if q = SLEEP_INTERVAL then some false else none
  | some owing, _ => some owing

/-- Scan of a trace by `sleepStep`, starting with no sleep owed. -/
def sleepScan (tr : List DLEvent) : Option Bool :=
  tr.foldl sleepStep (some false)

/-- A trace keeps the sleep discipline: every `download_file` invocation,
successful or not, is followed by a `SLEEP_INTERVAL` sleep before the next
invocation, and also after the last one. -/
def sleepSeparated (tr : List DLEvent) : Bool :=
  sleepScan tr = some false

/-! ### Derived descriptions used by the theorems -/

/-- Whether a manifest entry consists of exactly a
(category, filename, extension) triple — as opposed to the 4-tuples of
`DW_FILES` or the (url, subfolder, filename) triples of `DOD_SUMMARY`. -/
def isCatFileExtTriple : ManifestEntry → Bool
  | .army _ _ _ => true
  | .af _ _ _ => true
  | .dw _ _ _ _ => false
  | .dod _ _ _ => false

/-- A path lies strictly inside the output directory: its first
`/`-component is `OUTPUT_DIR`, at least one component follows, and no
later component is empty, `.` or `..`. -/
def insideTree (p : String) : Bool :=
  match splitSlash p.data with
  | root :: rest =>
    decide (root = OUTPUT_DIR.data) && !rest.isEmpty &&
      rest.all (fun comp =>
        !comp.isEmpty && !(decide (comp = ['.'])) && !(decide (comp = ['.', '.'])))
  | [] => false

/-- The directory taxonomy each manifest entry should land in: the output
root, a fixed per-service folder, then the sanitised category and filename
(for the three mapped manifests) or the literal subfolder and filename
(for the DoD Summary list). -/
def expectedComponents : ManifestEntry → List String
  | .army c f x => [OUTPUT_DIR, "Army", safe_filename c, safe_filename f ++ "." ++ x]
  | .af c f x => [OUTPUT_DIR, "AirForce", safe_filename c, safe_filename f ++ "." ++ x]
  | .dw c _ f x => [OUTPUT_DIR, "DefenseWide", safe_filename c, safe_filename f ++ "." ++ x]
  | .dod _ s f => [OUTPUT_DIR, s, f]

/-- The constructor-erasing view of an event, used to state that the
control behaviour of a run does not depend on the manifest strings. -/
def eventKind : DLEvent → Nat
  | DLEvent.mkdir _ => 0
  | DLEvent.call _ _ => 1
  | DLEvent.request _ => 2
  | DLEvent.openWrite _ => 3
  | DLEvent.write _ _ => 4
  | DLEvent.sleep _ => 5

/-- The string-free view of a run state: the two counters, the number of
failure records, and the sequence of event kinds. -/
def lowView (st : RunState) : Nat × Nat × Nat × List Nat :=
  (st.success_count, st.fail_count, st.failures.length, st.events.map eventKind)

/-- Whether the `i`-th download attempt succeeds, given the world. -/
def okAt (w : Nat → DLEnv) (i : Nat) : Bool := (entryOutcome (w i)).1

/-- Number of successes a crash-free run accumulates over a list of
entries starting at attempt index `i`. -/
def tallyS (w : Nat → DLEnv) : Nat → List ManifestEntry → Nat
  | _, [] => 0
  | i, _ :: es => (if okAt w i then 1 else 0) + tallyS w (i + 1) es

/-- Number of failures a crash-free run accumulates. -/
def tallyF (w : Nat → DLEnv) : Nat → List ManifestEntry → Nat
  | _, [] => 0
  | i, _ :: es => (if okAt w i then 0 else 1) + tallyF w (i + 1) es

/-- The `(label, url, message)` failure records a crash-free run appends,
one per failed entry, in order. -/
def failRecords (w : Nat → DLEnv) : Nat → List ManifestEntry →
    List (String × String × String)
  | _, [] => []
  | i, e :: es =>
    (if okAt w i then [] else [(entryLabel e, entryUrl e, (entryOutcome (w i)).2)]) ++
      failRecords w (i + 1) es

/-- The event trace a crash-free run emits. -/
def traceFrom (w : Nat → DLEnv) : Nat → List ManifestEntry → List DLEvent
  | _, [] => []
  | i, e :: es =>
    DLEvent.call (entryUrl e) (entryOutPath e) ::
      ((download_file (w i) (entryUrl e) (entryOutPath e)).2 ++
        (DLEvent.sleep SLEEP_INTERVAL :: traceFrom w (i + 1) es))

/-! ### Basic lemmas about `download_file` -/

theorem dl_result_noProp (env : DLEnv) (u d : String)
    (h1 : env.makedirsExn = none) (h2 : env.requestExn = none) :
    (download_file env u d).1 = Except.ok (entryOutcome env) := by
  unfold download_file entryOutcome
  rw [h1, h2]
  cases hres : env.openResult with
  | error ex => rfl
  | ok data =>
    cases hoe : env.openExn with
    | none =>
      cases hwe : env.writeExn with
      | none => rfl
      | some ex => rfl
    | some ex => rfl

theorem dl_fst_indep (env : DLEnv) (u d u' d' : String) :
    (download_file env u d).1 = (download_file env u' d').1 := by
  unfold download_file
  cases hmk : env.makedirsExn with
  | some ex => rfl
  | none =>
    cases hrq : env.requestExn with
    | some ex => rfl
    | none =>
      cases hres : env.openResult with
      | error ex => rfl
      | ok data =>
        cases hoe : env.openExn with
        | none =>
          cases hwe : env.writeExn with
          | none => rfl
          | some ex => rfl
        | some ex => rfl

theorem dl_kinds_indep (env : DLEnv) (u d u' d' : String) :
    (download_file env u d).2.map eventKind = (download_file env u' d').2.map eventKind := by
  unfold download_file
  cases hmk : env.makedirsExn with
  | some ex => rfl
  | none =>
    cases hrq : env.requestExn with
    | some ex => rfl
    | none =>
      cases hres : env.openResult with
      | error ex => rfl
      | ok data =>
        cases hoe : env.openExn with
        | none =>
          cases hwe : env.writeExn with
          | none => rfl
          | some ex => rfl
        | some ex => rfl

theorem callsOf_dl (env : DLEnv) (u d : String) :
    callsOf (download_file env u d).2 = [] := by
  unfold download_file
  cases hmk : env.makedirsExn with
  | some ex => rfl
  | none =>
    cases hrq : env.requestExn with
    | some ex => rfl
    | none =>
      cases hres : env.openResult with
      | error ex => rfl
      | ok data =>
        cases hoe : env.openExn with
        | none =>
          cases hwe : env.writeExn with
          | none => rfl
          | some ex => rfl
        | some ex => rfl

theorem sleepsOf_dl (env : DLEnv) (u d : String) :
    sleepsOf (download_file env u d).2 = [] := by
  unfold download_file
  cases hmk : env.makedirsExn with
  | some ex => rfl
  | none =>
    cases hrq : env.requestExn with
    | some ex => rfl
    | none =>
      cases hres : env.openResult with
      | error ex => rfl
      | ok data =>
        cases hoe : env.openExn with
        | none =>
          cases hwe : env.writeExn with
          | none => rfl
          | some ex => rfl
        | some ex => rfl

theorem writesOf_dl_sub (env : DLEnv) (u d : String) :
    ∀ p data, (p, data) ∈ writesOf (download_file env u d).2 → p = d := by
  intro p data hp
  unfold download_file at hp
  cases hmk : env.makedirsExn with
  | some ex => rw [hmk] at hp; simp [writesOf] at hp
  | none =>
    rw [hmk] at hp
    cases hrq : env.requestExn with
    | some ex => rw [hrq] at hp; simp [writesOf] at hp
    | none =>
      rw [hrq] at hp
      cases hres : env.openResult with
      | error ex => rw [hres] at hp; simp [writesOf] at hp
      | ok data' =>
        rw [hres] at hp
        cases hoe : env.openExn with
        | none =>
          rw [hoe] at hp
          cases hwe : env.writeExn with
          | none =>
            rw [hwe] at hp
            simp [writesOf] at hp
            exact hp.1
          | some ex => rw [hwe] at hp; simp [writesOf] at hp
        | some ex => rw [hoe] at hp; simp [writesOf] at hp

theorem sleepScan_dl (env : DLEnv) (u d : String) (b : Bool) :
    List.foldl sleepStep (some b) (download_file env u d).2 = some b := by
  unfold download_file
  cases hmk : env.makedirsExn with
  | some ex => rfl
  | none =>
    cases hrq : env.requestExn with
    | some ex => rfl
    | none =>
      cases hres : env.openResult with
      | error ex => rfl
      | ok data =>
        cases hoe : env.openExn with
        | none =>
          cases hwe : env.writeExn with
          | none => rfl
          | some ex => rfl
        | some ex => rfl

theorem dl_trace_head (env : DLEnv) (u d : String) (h1 : env.makedirsExn = none) :
    (download_file env u d).2.head? = some (DLEvent.mkdir (dirname d)) := by
  unfold download_file
  rw [h1]
  cases hrq : env.requestExn with
  | some ex => rfl
  | none =>
    cases hres : env.openResult with
    | error ex => rfl
    | ok data =>
      cases hoe : env.openExn with
      | none =>
        cases hwe : env.writeExn with
        | none => rfl
        | some ex => rfl
      | some ex => rfl

/-! ### The closed form of a crash-free run -/

theorem runList_closed (w : Nat → DLEnv) (hw : ∀ i, noProp (w i)) :
    ∀ (es : List ManifestEntry) (i : Nat) (st : RunState),
    runList w i st es =
      ({ success_count := st.success_count + tallyS w i es,
         fail_count := st.fail_count + tallyF w i es,
         failures := st.failures ++ failRecords w i es,
         events := st.events ++ traceFrom w i es }, none) := by
  intro es
  induction es with
  | nil =>
    intro i st
    simp [runList, tallyS, tallyF, failRecords, traceFrom]
  | cons e rest ih =>
    intro i st
    rcases hdl : download_file (w i) (entryUrl e) (entryOutPath e) with ⟨res, tr⟩
    have h1 := dl_result_noProp (w i) (entryUrl e) (entryOutPath e) (hw i).1 (hw i).2
    rw [hdl] at h1
    simp only at h1
    subst h1
    rcases ho : entryOutcome (w i) with ⟨b, m⟩
    cases b with
    | true =>
      simp only [runList, hdl, ho, tallyS, tallyF, failRecords, traceFrom, okAt,
        if_true, ih]
      simp [Nat.add_assoc, List.append_assoc, ho]
    | false =>
      simp only [runList, hdl, ho, tallyS, tallyF, failRecords, traceFrom, okAt,
        if_false, ih]
      simp [Nat.add_assoc, List.append_assoc, ho]

/-! ### Distribution lemmas for the trace projections -/

theorem callsOf_append (a b : List DLEvent) :
    callsOf (a ++ b) = callsOf a ++ callsOf b := by
  simp [callsOf]

theorem writesOf_append (a b : List DLEvent) :
    writesOf (a ++ b) = writesOf a ++ writesOf b := by
  simp [writesOf]

theorem sleepsOf_append (a b : List DLEvent) :
    sleepsOf (a ++ b) = sleepsOf a ++ sleepsOf b := by
  simp [sleepsOf]

theorem callsOf_cons_call (u d : String) (l : List DLEvent) :
    callsOf (DLEvent.call u d :: l) = (u, d) :: callsOf l := by
  simp [callsOf]

theorem callsOf_cons_sleep (q : ℚ) (l : List DLEvent) :
    callsOf (DLEvent.sleep q :: l) = callsOf l := by
  simp [callsOf]

theorem writesOf_cons_call (u d : String) (l : List DLEvent) :
    writesOf (DLEvent.call u d :: l) = writesOf l := by
  simp [writesOf]

theorem writesOf_cons_sleep (q : ℚ) (l : List DLEvent) :
    writesOf (DLEvent.sleep q :: l) = writesOf l := by
  simp [writesOf]

theorem sleepsOf_cons_call (u d : String) (l : List DLEvent) :
    sleepsOf (DLEvent.call u d :: l) = sleepsOf l := by
  simp [sleepsOf]

theorem sleepsOf_cons_sleep (q : ℚ) (l : List DLEvent) :
    sleepsOf (DLEvent.sleep q :: l) = q :: sleepsOf l := by
  simp [sleepsOf]

/-! ### Consequences of the closed form -/

theorem tally_sum (w : Nat → DLEnv) :
    ∀ (es : List ManifestEntry) (i : Nat),
    tallyS w i es + tallyF w i es = es.length := by
  intro es
  induction es with
  | nil => intro i; rfl
  | cons e rest ih =>
    intro i
    have h := ih (i + 1)
    cases hok : okAt w i <;> simp [tallyS, tallyF, hok] <;> omega

theorem failRecords_length (w : Nat → DLEnv) :
    ∀ (es : List ManifestEntry) (i : Nat),
    (failRecords w i es).length = tallyF w i es := by
  intro es
  induction es with
  | nil => intro i; rfl
  | cons e rest ih =>
    intro i
    have h := ih (i + 1)
    cases hok : okAt w i <;> simp [failRecords, tallyF, hok] <;> omega

theorem callsOf_traceFrom (w : Nat → DLEnv) :
    ∀ (es : List ManifestEntry) (i : Nat),
    callsOf (traceFrom w i es) = es.map (fun e => (entryUrl e, entryOutPath e)) := by
  intro es
  induction es with
  | nil => intro i; rfl
  | cons e rest ih =>
    intro i
    simp only [traceFrom, callsOf_cons_call, callsOf_append, callsOf_dl,
      callsOf_cons_sleep, ih, List.nil_append, List.map_cons]

theorem sleepsOf_traceFrom (w : Nat → DLEnv) :
    ∀ (es : List ManifestEntry) (i : Nat),
    sleepsOf (traceFrom w i es) = List.replicate es.length SLEEP_INTERVAL := by
  intro es
  induction es with
  | nil => intro i; rfl
  | cons e rest ih =>
    intro i
    simp only [traceFrom, sleepsOf_cons_call, sleepsOf_append, sleepsOf_dl,
      sleepsOf_cons_sleep, ih, List.nil_append, List.length_cons, List.replicate]

theorem sleepScan_traceFrom (w : Nat → DLEnv) :
    ∀ (es : List ManifestEntry) (i : Nat),
    List.foldl sleepStep (some false) (traceFrom w i es) = some false := by
  intro es
  induction es with
  | nil => intro i; rfl
  | cons e rest ih =>
    intro i
    simp only [traceFrom, List.foldl_cons, List.foldl_append]
    have h0 : sleepStep (some false) (DLEvent.call (entryUrl e) (entryOutPath e)) = some true := rfl
    rw [h0, sleepScan_dl]
    have h1 : sleepStep (some true) (DLEvent.sleep SLEEP_INTERVAL) = some false := by
      simp [sleepStep]
    rw [h1]
    exact ih (i + 1)

theorem writesOf_nil : writesOf [] = [] := rfl

/-! ### Writes of an arbitrary (possibly aborted) run -/

theorem runList_writes (w : Nat → DLEnv) :
    ∀ (es : List ManifestEntry) (i : Nat) (st : RunState) (p : String) (data : List Nat),
    (p, data) ∈ writesOf (runList w i st es).1.events →
    (p, data) ∈ writesOf st.events ∨ p ∈ es.map entryOutPath := by
  intro es
  induction es with
  | nil =>
    intro i st p data hp
    left
    simpa [runList] using hp
  | cons e rest ih =>
    intro i st p data hp
    rcases hdl : download_file (w i) (entryUrl e) (entryOutPath e) with ⟨res, tr⟩
    have htr : ∀ q data', (q, data') ∈ writesOf tr → q = entryOutPath e := by
      intro q data' hq
      refine writesOf_dl_sub (w i) (entryUrl e) (entryOutPath e) q data' ?_
      rw [hdl]
      exact hq
    cases res with
    | error ex =>
      simp only [runList, hdl] at hp
      simp only [writesOf_append, writesOf_cons_call] at hp
      rcases List.mem_append.mp hp with h | h
      · exact Or.inl h
      · right
        rw [htr p data h]
        simp
    | ok r =>
      rcases r with ⟨b, m⟩
      simp only [runList, hdl] at hp
      rcases ih (i + 1) _ p data hp with h | h
      · simp only [apply_ite RunState.events, ite_self, writesOf_append,
          writesOf_cons_call, writesOf_cons_sleep, writesOf_nil, List.append_nil] at h
        rcases List.mem_append.mp h with h' | h'
        · exact Or.inl h'
        · right
          rw [htr p data h']
          simp
      · right
        simp [h]

/-! ### The control behaviour of a run is independent of the manifest strings -/

theorem runList_lowEq (w : Nat → DLEnv) :
    ∀ (es₁ es₂ : List ManifestEntry), es₁.length = es₂.length →
    ∀ (i : Nat) (st₁ st₂ : RunState), lowView st₁ = lowView st₂ →
    lowView (runList w i st₁ es₁).1 = lowView (runList w i st₂ es₂).1 ∧
    (runList w i st₁ es₁).2 = (runList w i st₂ es₂).2 := by
  intro es₁
  induction es₁ with
  | nil =>
    intro es₂ hlen i st₁ st₂ hst
    cases es₂ with
    | nil => exact ⟨hst, rfl⟩
    | cons _ _ => simp at hlen
  | cons e₁ r₁ ih =>
    intro es₂ hlen i st₁ st₂ hst
    cases es₂ with
    | nil => simp at hlen
    | cons e₂ r₂ =>
      have hlen' : r₁.length = r₂.length := by simpa using hlen
      simp only [lowView, Prod.mk.injEq] at hst
      obtain ⟨h1, h2, h3, h4⟩ := hst
      rcases hdl₁ : download_file (w i) (entryUrl e₁) (entryOutPath e₁) with ⟨res₁, tr₁⟩
      rcases hdl₂ : download_file (w i) (entryUrl e₂) (entryOutPath e₂) with ⟨res₂, tr₂⟩
      have hres : res₁ = res₂ := by
        have h := dl_fst_indep (w i) (entryUrl e₁) (entryOutPath e₁) (entryUrl e₂) (entryOutPath e₂)
        rw [hdl₁, hdl₂] at h
        exact h
      have hkind : tr₁.map eventKind = tr₂.map eventKind := by
        have h := dl_kinds_indep (w i) (entryUrl e₁) (entryOutPath e₁) (entryUrl e₂) (entryOutPath e₂)
        rw [hdl₁, hdl₂] at h
        exact h
      subst hres
      cases res₁ with
      | error ex =>
        simp only [runList, hdl₁, hdl₂]
        refine ⟨?_, by trivial⟩
        simp [lowView, h1, h2, h3, h4, List.map_append, hkind, eventKind]
      | ok r =>
        rcases r with ⟨b, m⟩
        simp only [runList, hdl₁, hdl₂]
        apply ih r₂ hlen' (i + 1)
        cases b with
        | true =>
          simp [lowView, h1, h2, h3, h4, List.map_append, hkind, eventKind]
        | false =>
          simp [lowView, h1, h2, h3, h4, List.map_append, hkind, eventKind]

/-! ### Characterisation of `safe_filename` -/

/-- The pointwise effect of `safe_filename`: an illegal character becomes
`_`, every other character is unchanged. -/
def sanitizeChar (c : Char) : Char :=
  if c ∈ ILLEGAL_CHARS then '_' else c

theorem safe_filename_data (s : String) :
    (safe_filename s).data =
      ILLEGAL_CHARS.foldl
        (fun acc ch => acc.map (fun c => if c = ch then '_' else c)) s.data := by
  show (List.foldl _ s ILLEGAL_CHARS).data = _
  generalize ILLEGAL_CHARS = L
  induction L generalizing s with
  | nil => rfl
  | cons a L ih =>
    simp only [List.foldl_cons]
    exact ih (String.mk (s.data.map (fun c => if c = a then '_' else c)))

theorem foldl_map_comm (L : List Char) :
    ∀ (l : List Char),
    L.foldl (fun acc ch => acc.map (fun c => if c = ch then '_' else c)) l
      = l.map (fun c => L.foldl (fun y ch => if y = ch then '_' else y) c) := by
  induction L with
  | nil => intro l; simp
  | cons a L ih =>
    intro l
    simp only [List.foldl_cons]
    rw [ih, List.map_map]
    rfl

theorem sanitize_char_eq (c : Char) :
    ILLEGAL_CHARS.foldl (fun y ch => if y = ch then '_' else y) c = sanitizeChar c := by
  by_cases h : c ∈ ILLEGAL_CHARS
  · simp only [ILLEGAL_CHARS, List.mem_cons, List.not_mem_nil, or_false] at h
    rcases h with rfl | rfl | rfl | rfl | rfl | rfl | rfl | rfl | rfl <;> decide
  · simp only [ILLEGAL_CHARS, List.mem_cons, List.not_mem_nil, or_false, not_or] at h
    obtain ⟨n1, n2, n3, n4, n5, n6, n7, n8, n9⟩ := h
    simp only [ILLEGAL_CHARS, List.foldl_cons, List.foldl_nil,
      n1, n2, n3, n4, n5, n6, n7, n8, n9, if_false, reduceIte]
    simp only [sanitizeChar, ILLEGAL_CHARS, List.mem_cons, List.not_mem_nil, or_false,
      n1, n2, n3, n4, n5, n6, n7, n8, n9, or_self, if_false, reduceIte]

theorem safe_filename_eq_map (s : String) :
    safe_filename s = String.mk (s.data.map sanitizeChar) := by
  have hd : (safe_filename s).data = s.data.map sanitizeChar := by
    rw [safe_filename_data, foldl_map_comm]
    simp only [sanitize_char_eq]
  calc safe_filename s = String.mk (safe_filename s).data := rfl
    _ = String.mk (s.data.map sanitizeChar) := by rw [hd]

theorem sanitizeChar_not_illegal (c : Char) : sanitizeChar c ∉ ILLEGAL_CHARS := by
  by_cases h : c ∈ ILLEGAL_CHARS
  · simp only [sanitizeChar, h, if_true, reduceIte]
    decide
  · simp [sanitizeChar, h]

theorem sanitizeChar_idem (c : Char) : sanitizeChar (sanitizeChar c) = sanitizeChar c := by
  by_cases h : c ∈ ILLEGAL_CHARS
  · simp [sanitizeChar, h]
  · simp [sanitizeChar, h]

/-! ### Claim theorems -/

/-- A world in which every effectful step succeeds (empty bodies). -/
def allOkEnv : DLEnv :=
  { makedirsExn := none, requestExn := none, openResult := Except.ok [],
    openExn := none, writeExn := none }

/-- C8: for every string `s`, `safe_filename s` contains none of the
characters `\/:*?"<>|`, has the same length as `s`, maps each character of
that set to `_` while leaving every other character unchanged
(the `sanitizeChar` characterisation), and is idempotent. -/
theorem safe_filename_sanitizes (s : String) :
    ((safe_filename s).data.all (fun c => decide (c ∉ ILLEGAL_CHARS))) = true
    ∧ (safe_filename s).length = s.length
    ∧ safe_filename s = String.mk (s.data.map sanitizeChar)
    ∧ safe_filename (safe_filename s) = safe_filename s := by
  refine ⟨?_, ?_, safe_filename_eq_map s, ?_⟩
  · rw [safe_filename_eq_map]
    simp only [List.all_eq_true, List.mem_map, decide_eq_true_eq]
    rintro c ⟨x, _, rfl⟩
    exact sanitizeChar_not_illegal x
  · rw [safe_filename_eq_map]
    show (s.data.map sanitizeChar).length = s.data.length
    exact List.length_map s.data sanitizeChar
  · rw [safe_filename_eq_map s, safe_filename_eq_map]
    simp only [List.map_map]
    congr 1
    simp only [Function.comp_def, sanitizeChar_idem]

/-- C1 counterexample: an exception raised by `os.makedirs` — which runs
before the `try` block — escapes `download_file` instead of being turned
into a `(False, message)` return value, refuting the claim that
`download_file` never propagates an exception to its caller. -/
theorem download_file_makedirs_escapes :
    (download_file
      { makedirsExn := some (Exn.other "[Errno 13] Permission denied: 'fy2026_budget/Army'"),
        requestExn := none, openResult := Except.ok [], openExn := none, writeExn := none }
      "https://example.org/a.xml" "fy2026_budget/Army/a.xml").1 =
      Except.error (Exn.other "[Errno 13] Permission denied: 'fy2026_budget/Army'") := rfl

/-- C1 (amended): once `os.makedirs` and the `Request` constructor — which
run before the `try` block and whose exceptions do propagate — succeed,
`download_file` never propagates: it returns `(True, size message)`
exactly when the request, the body read and the file write all succeed,
and every exception raised inside the `try` block is caught (the first of
the three ordered handlers that matches) and stringified into a
`(False, reason)` return value. -/
theorem download_file_try_block_total (env : DLEnv) (url dest : String)
    (h1 : env.makedirsExn = none) (h2 : env.requestExn = none) :
    (download_file env url dest).1 = Except.ok (entryOutcome env)
    ∧ ((entryOutcome env).1 = true ↔
        env.openExn = none ∧ env.writeExn = none ∧ ∃ data, env.openResult = Except.ok data)
    ∧ (∀ ex, env.openResult = Except.error ex → entryOutcome env = (false, excMsg ex))
    ∧ (∀ data ex, env.openResult = Except.ok data → env.openExn = some ex →
        entryOutcome env = (false, excMsg ex))
    ∧ (∀ data ex, env.openResult = Except.ok data → env.openExn = none →
        env.writeExn = some ex → entryOutcome env = (false, excMsg ex))
    ∧ (∀ data, env.openResult = Except.ok data → env.openExn = none → env.writeExn = none →
        entryOutcome env = (true, sizeMsg data.length))
    ∧ (∀ ex : Exn, catchingHandler ex < 3) := by
  refine ⟨dl_result_noProp env url dest h1 h2, ?_, ?_, ?_, ?_, ?_, ?_⟩
  · cases hres : env.openResult with
    | error ex => simp [entryOutcome, hres]
    | ok data =>
      cases hoe : env.openExn with
      | some ex => simp [entryOutcome, hres, hoe]
      | none =>
        cases hwe : env.writeExn with
        | some ex => simp [entryOutcome, hres, hoe, hwe]
        | none => simp [entryOutcome, hres, hoe, hwe]
  · intro ex h
    simp [entryOutcome, h]
  · intro data ex h ho
    simp [entryOutcome, h, ho]
  · intro data ex h ho hwr
    simp [entryOutcome, h, ho, hwr]
  · intro data h ho hwr
    simp [entryOutcome, h, ho, hwr]
  · intro ex
    have h3 : catchingHandler ex = 0 ∨ catchingHandler ex = 1 ∨ catchingHandler ex = 2 := by
      cases ex
      · exact Or.inl rfl
      · exact Or.inr (Or.inl rfl)
      · exact Or.inr (Or.inr rfl)
    rcases h3 with h | h | h <;> omega

/-- C1 witness: the amended theorem applied at a concrete environment in
which the pre-`try` steps succeed. -/
theorem download_file_try_block_total_witness :
    (download_file
      { makedirsExn := none, requestExn := none, openResult := Except.ok [7, 7],
        openExn := none, writeExn := none } "https://example.org/a.xml" "o/a.xml").1 =
      Except.ok (entryOutcome
        { makedirsExn := none, requestExn := none, openResult := Except.ok [7, 7],
          openExn := none, writeExn := none }) :=
  (download_file_try_block_total
    { makedirsExn := none, requestExn := none, openResult := Except.ok [7, 7],
      openExn := none, writeExn := none } "https://example.org/a.xml" "o/a.xml" rfl rfl).1

/-- C2: every successful `download_file` call writes to the destination
exactly the byte sequence read from the response body — one write event,
verbatim bytes, no parsing or transformation — and the reported size
message is a function of that byte sequence alone. -/
theorem download_file_writes_body_verbatim (env : DLEnv) (url dest m : String)
    (h : (download_file env url dest).1 = Except.ok (true, m)) :
    ∃ data, env.openResult = Except.ok data
      ∧ writesOf (download_file env url dest).2 = [(dest, data)]
      ∧ m = sizeMsg data.length := by
  cases hmk : env.makedirsExn with
  | some ex => simp [download_file, hmk] at h
  | none =>
    cases hrq : env.requestExn with
    | some ex => simp [download_file, hmk, hrq] at h
    | none =>
      cases hres : env.openResult with
      | error ex => simp [download_file, hmk, hrq, hres] at h
      | ok data =>
        cases hoe : env.openExn with
        | some ex => simp [download_file, hmk, hrq, hres, hoe] at h
        | none =>
          cases hwe : env.writeExn with
          | some ex => simp [download_file, hmk, hrq, hres, hoe, hwe] at h
          | none =>
            refine ⟨data, rfl, ?_, ?_⟩
            · simp [download_file, hmk, hrq, hres, hoe, hwe, writesOf]
            · simp [download_file, hmk, hrq, hres, hoe, hwe] at h
              exact h.symm

/-- C2 witness: the theorem applied at a concrete successful call. -/
theorem download_file_writes_body_verbatim_witness :
    ∃ data,
      ({ makedirsExn := none, requestExn := none, openResult := Except.ok [1, 2, 3],
         openExn := none, writeExn := none } : DLEnv).openResult = Except.ok data
      ∧ writesOf (download_file
          { makedirsExn := none, requestExn := none, openResult := Except.ok [1, 2, 3],
            openExn := none, writeExn := none } "https://example.org/b.json" "o/b.json").2
        = [("o/b.json", data)]
      ∧ sizeMsg 3 = sizeMsg data.length :=
  download_file_writes_body_verbatim
    { makedirsExn := none, requestExn := none, openResult := Except.ok [1, 2, 3],
      openExn := none, writeExn := none } "https://example.org/b.json" "o/b.json"
    (sizeMsg 3) rfl

/-- C9: the parent directory of the destination is created first and
unconditionally (the head of every no-makedirs-exception trace is the
`mkdir` event), while the destination file is opened only after the whole
body has been read: when the request or the body read raises, the call
returns `(False, stringified reason)` and its trace contains no open and
no write of the destination. -/
theorem request_failure_leaves_no_file (env : DLEnv) (url dest : String) (ex : Exn)
    (h1 : env.makedirsExn = none) (h2 : env.requestExn = none)
    (h3 : env.openResult = Except.error ex) :
    (download_file env url dest).1 = Except.ok (false, excMsg ex)
    ∧ (download_file env url dest).2 = [DLEvent.mkdir (dirname dest), DLEvent.request url]
    ∧ writesOf (download_file env url dest).2 = []
    ∧ (∀ env' : DLEnv, env'.makedirsExn = none →
        (download_file env' url dest).2.head? = some (DLEvent.mkdir (dirname dest))) := by
  refine ⟨?_, ?_, ?_, fun env' h' => dl_trace_head env' url dest h'⟩
  · simp [download_file, h1, h2, h3]
  · simp [download_file, h1, h2, h3]
  · simp [download_file, h1, h2, h3, writesOf]

/-- C9 witness: the theorem applied at a concrete HTTP 404 failure. -/
theorem request_failure_leaves_no_file_witness :
    (download_file
      { makedirsExn := none, requestExn := none,
        openResult := Except.error (Exn.httpError 404), openExn := none, writeExn := none }
      "https://example.org/missing.xml" "o/missing.xml").1 =
      Except.ok (false, excMsg (Exn.httpError 404)) :=
  (request_failure_leaves_no_file
    { makedirsExn := none, requestExn := none,
      openResult := Except.error (Exn.httpError 404), openExn := none, writeExn := none }
    "https://example.org/missing.xml" "o/missing.xml" (Exn.httpError 404) rfl rfl rfl).1

/-- C3: at every point of a crash-free run, the counters partition the
entries processed so far (each entry bumps exactly one counter) and
`fail_count` equals the length of the failures list, which holds one
`(label, url, message)` record per failed entry; the final tally is out of
98, the combined size of the four manifests. -/
theorem main_tally_invariant (w : Nat → DLEnv) (hw : ∀ i, noProp (w i)) :
    (∀ k, (runList w 0 initState (allEntries.take k)).1.success_count
          + (runList w 0 initState (allEntries.take k)).1.fail_count
          = (allEntries.take k).length
        ∧ (runList w 0 initState (allEntries.take k)).1.fail_count
          = (runList w 0 initState (allEntries.take k)).1.failures.length)
    ∧ (mainRun w).1.success_count + (mainRun w).1.fail_count = 98
    ∧ (mainRun w).1.failures = failRecords w 0 allEntries
    ∧ ARMY_FILES.length + AF_FILES.length + DW_FILES.length + DOD_SUMMARY.length = 98
    ∧ allEntries.length = 98 := by
  refine ⟨?_, ?_, ?_, rfl, rfl⟩
  · intro k
    rw [runList_closed w hw (allEntries.take k) 0 initState]
    constructor
    · simp only [initState, Nat.zero_add]
      exact tally_sum w (allEntries.take k) 0
    · simp only [initState, Nat.zero_add, List.nil_append]
      exact (failRecords_length w (allEntries.take k) 0).symm
  · rw [mainRun, runList_closed w hw allEntries 0 initState]
    simp only [initState, Nat.zero_add]
    have h := tally_sum w allEntries 0
    have hlen : allEntries.length = 98 := rfl
    omega
  · rw [mainRun, runList_closed w hw allEntries 0 initState]
    simp only [initState, List.nil_append]

/-- C3 witness: the invariant theorem applied at the all-success world. -/
theorem main_tally_invariant_witness :
    (mainRun (fun _ => allOkEnv)).1.success_count
      + (mainRun (fun _ => allOkEnv)).1.fail_count = 98 :=
  (main_tally_invariant (fun _ => allOkEnv) (fun _ => ⟨rfl, rfl⟩)).2.1

/-- C4 counterexample: the DoD Summary files are written at depth
`<root>/<folder>/<filename>`, with no `<Category>` level, so the
destination of the first DoD Summary entry does not have the claimed
`<Service>/<Category>/<filename>.<ext>` shape. -/
theorem dod_summary_path_lacks_category_level :
    ManifestEntry.dod
        "https://comptroller.war.gov/Portals/45/Documents/defbudget/FY2026/m1_display.xlsx"
        "DoD_Summary" "FY2026_M1_Military_Personnel.xlsx" ∈ allEntries
    ∧ pathComponents (entryOutPath (ManifestEntry.dod
        "https://comptroller.war.gov/Portals/45/Documents/defbudget/FY2026/m1_display.xlsx"
        "DoD_Summary" "FY2026_M1_Military_Personnel.xlsx"))
      = ["fy2026_budget", "DoD_Summary", "FY2026_M1_Military_Personnel.xlsx"]
    ∧ (pathComponents (entryOutPath (ManifestEntry.dod
        "https://comptroller.war.gov/Portals/45/Documents/defbudget/FY2026/m1_display.xlsx"
        "DoD_Summary" "FY2026_M1_Military_Personnel.xlsx"))).length ≠ 4 := by
  refine ⟨by decide, by decide, by decide⟩

/-- C4 (amended): every path the program ever writes is the output path of
some manifest entry; every manifest output path lies strictly inside the
`fy2026_budget` tree (first component `fy2026_budget`, no empty, `.` or
`..` component after it); Army, Air Force and Defense-Wide files land at
`<root>/<Service>/<Category>/<filename>.<ext>`, DoD Summary files at
`<root>/DoD_Summary/<filename>`, as per `expectedComponents`. -/
theorem main_writes_inside_output_tree :
    (∀ w : Nat → DLEnv,
      ((writesOf (mainRun w).1.events).all
        (fun pd => (allEntries.map entryOutPath).any (fun q => pd.1 = q))) = true)
    ∧ (allEntries.all (fun e => insideTree (entryOutPath e))) = true
    ∧ (allEntries.all (fun e => pathComponents (entryOutPath e) = expectedComponents e))
      = true := by
  refine ⟨?_, by decide, by decide⟩
  intro w
  simp only [List.all_eq_true]
  intro pd hpd
  rcases pd with ⟨p, data⟩
  have h := runList_writes w allEntries 0 initState p data hpd
  rcases h with h | h
  · simp [initState, writesOf] at h
  · simp only [List.any_eq_true, decide_eq_true_eq]
    exact ⟨p, h, rfl⟩

/-- C5 counterexample: the Defense-Wide manifest consists of
(category, url-path, filename, extension) 4-tuples, so not every entry of
the program's static manifest is a (category, filename, extension)
triple. -/
theorem dw_manifest_entry_is_not_a_triple :
    ManifestEntry.dw "O&M" "01_Operation_and_Maintenance/O_M_VOL_1_PART_1"
        "OM_Volume1_Part1" "json" ∈ allEntries
    ∧ isCatFileExtTriple (ManifestEntry.dw "O&M"
        "01_Operation_and_Maintenance/O_M_VOL_1_PART_1" "OM_Volume1_Part1" "json")
      = false :=
  ⟨by decide, rfl⟩

/-- C5 (amended): the static manifest consists of
(category, filename, extension) triples for Army and Air Force,
(category, url-path, filename, extension) 4-tuples for Defense-Wide, and
(url, subfolder, filename) triples for DoD Summary; every entry is
consumed by the single generic `download_file` routine invoked in a loop,
with exactly these uses of the components. -/
theorem manifests_feed_single_download_routine (w : Nat → DLEnv)
    (hw : ∀ i, noProp (w i)) :
    callsOf (mainRun w).1.events =
      ARMY_FILES.map (fun t =>
        (ARMY_BASE ++ "/" ++ quote (t.1 ++ "/" ++ t.2.1 ++ "." ++ t.2.2),
         osPathJoin OUTPUT_DIR
           ["Army", safe_filename t.1, safe_filename t.2.1 ++ "." ++ t.2.2]))
      ++ AF_FILES.map (fun t =>
        (AF_BASE ++ "/" ++ quote (t.2.1 ++ "." ++ t.2.2),
         osPathJoin OUTPUT_DIR
           ["AirForce", safe_filename t.1, safe_filename t.2.1 ++ "." ++ t.2.2]))
      ++ DW_FILES.map (fun t =>
        (DW_BASE ++ "/" ++ t.2.1 ++ "/" ++ t.2.2.1 ++ "." ++ t.2.2.2,
         osPathJoin OUTPUT_DIR
           ["DefenseWide", safe_filename t.1, safe_filename t.2.2.1 ++ "." ++ t.2.2.2]))
      ++ DOD_SUMMARY.map (fun t =>
        (t.1, osPathJoin OUTPUT_DIR [t.2.1, t.2.2])) := by
  have h : callsOf (mainRun w).1.events
      = allEntries.map (fun e => (entryUrl e, entryOutPath e)) := by
    rw [mainRun, runList_closed w hw allEntries 0 initState]
    simp only [initState, List.nil_append]
    exact callsOf_traceFrom w allEntries 0
  rw [h, allEntries]
  simp only [List.map_append, List.map_map]
  rfl

/-- C5 witness: the amended theorem applied at the all-success world. -/
theorem manifests_feed_single_download_routine_witness :
    callsOf (mainRun (fun _ => allOkEnv)).1.events =
      ARMY_FILES.map (fun t =>
        (ARMY_BASE ++ "/" ++ quote (t.1 ++ "/" ++ t.2.1 ++ "." ++ t.2.2),
         osPathJoin OUTPUT_DIR
           ["Army", safe_filename t.1, safe_filename t.2.1 ++ "." ++ t.2.2]))
      ++ AF_FILES.map (fun t =>
        (AF_BASE ++ "/" ++ quote (t.2.1 ++ "." ++ t.2.2),
         osPathJoin OUTPUT_DIR
           ["AirForce", safe_filename t.1, safe_filename t.2.1 ++ "." ++ t.2.2]))
      ++ DW_FILES.map (fun t =>
        (DW_BASE ++ "/" ++ t.2.1 ++ "/" ++ t.2.2.1 ++ "." ++ t.2.2.2,
         osPathJoin OUTPUT_DIR
           ["DefenseWide", safe_filename t.1, safe_filename t.2.2.1 ++ "." ++ t.2.2.2]))
      ++ DOD_SUMMARY.map (fun t =>
        (t.1, osPathJoin OUTPUT_DIR [t.2.1, t.2.2])) :=
  manifests_feed_single_download_routine (fun _ => allOkEnv) (fun _ => ⟨rfl, rfl⟩)

/-- C6: in a run without escaping pre-`try` exceptions, `download_file` is
invoked exactly once per manifest entry, sequentially in manifest order
(all of Army, then Air Force, then Defense-Wide, then DoD Summary, each in
list order); no entry is retried, and because the conclusion holds for
every such world — whatever the per-entry outcomes — a failure never
changes which later entries are attempted. -/
theorem downloads_once_in_manifest_order (w : Nat → DLEnv)
    (hw : ∀ i, noProp (w i)) :
    (mainRun w).2 = none
    ∧ callsOf (mainRun w).1.events
        = allEntries.map (fun e => (entryUrl e, entryOutPath e))
    ∧ (callsOf (mainRun w).1.events).length = allEntries.length
    ∧ (∀ w', (∀ i, noProp (w' i)) →
        callsOf (mainRun w').1.events = callsOf (mainRun w).1.events) := by
  have hmain : ∀ (w0 : Nat → DLEnv), (∀ i, noProp (w0 i)) →
      callsOf (mainRun w0).1.events
        = allEntries.map (fun e => (entryUrl e, entryOutPath e)) := by
    intro w0 hw0
    rw [mainRun, runList_closed w0 hw0 allEntries 0 initState]
    simp only [initState, List.nil_append]
    exact callsOf_traceFrom w0 allEntries 0
  refine ⟨?_, hmain w hw, ?_, fun w' hw' => (hmain w' hw').trans (hmain w hw).symm⟩
  · rw [mainRun, runList_closed w hw allEntries 0 initState]
  · rw [hmain w hw, List.length_map]

/-- C6 witness: the theorem applied at the all-success world. -/
theorem downloads_once_in_manifest_order_witness :
    (mainRun (fun _ => allOkEnv)).2 = none :=
  (downloads_once_in_manifest_order (fun _ => allOkEnv) (fun _ => ⟨rfl, rfl⟩)).1

/-- C7: in a run without escaping pre-`try` exceptions, the trace keeps
the sleep discipline — after every one of the 98 download attempts,
successful or failed, the program sleeps before the next attempt — and
every sleep has the same constant duration 0.3 seconds. -/
theorem sleep_after_every_attempt (w : Nat → DLEnv) (hw : ∀ i, noProp (w i)) :
    sleepSeparated (mainRun w).1.events = true
    ∧ sleepsOf (mainRun w).1.events = List.replicate 98 SLEEP_INTERVAL
    ∧ (callsOf (mainRun w).1.events).length = 98 := by
  rw [mainRun, runList_closed w hw allEntries 0 initState]
  simp only [initState, List.nil_append]
  refine ⟨?_, ?_, ?_⟩
  · simp [sleepSeparated, sleepScan, sleepScan_traceFrom]
  · rw [sleepsOf_traceFrom]
    rfl
  · rw [callsOf_traceFrom, List.length_map]
    rfl

/-- C7 witness: the theorem applied at the all-success world. -/
theorem sleep_after_every_attempt_witness :
    sleepSeparated (mainRun (fun _ => allOkEnv)).1.events = true :=
  (sleep_after_every_attempt (fun _ => allOkEnv) (fun _ => ⟨rfl, rfl⟩)).1

/-- C10: the manifest strings never reach control flow: two runs of the
download loop over manifests of the same length, under the same world,
have identical counters, identically many failure records, identical
event-kind sequences (so the same number of requests in the same order),
and the same escaping exception, differing only in the URL and path
strings inside the events. -/
theorem manifest_strings_noninterference (w : Nat → DLEnv)
    (es₁ es₂ : List ManifestEntry) (hlen : es₁.length = es₂.length) :
    lowView (runList w 0 initState es₁).1 = lowView (runList w 0 initState es₂).1
    ∧ (runList w 0 initState es₁).2 = (runList w 0 initState es₂).2 :=
  runList_lowEq w es₁ es₂ hlen 0 initState initState rfl

/-- C10 witness: the theorem applied to two single-entry manifests with
entirely different strings (and even different tuple shapes). -/
theorem manifest_strings_noninterference_witness :
    lowView (runList (fun _ => allOkEnv) 0 initState
        [ManifestEntry.army "Some Category" "Some File" "xml"]).1
      = lowView (runList (fun _ => allOkEnv) 0 initState
        [ManifestEntry.dod "https://example.org/x.json" "Other_Folder" "y.json"]).1 :=
  (manifest_strings_noninterference (fun _ => allOkEnv)
    [ManifestEntry.army "Some Category" "Some File" "xml"]
    [ManifestEntry.dod "https://example.org/x.json" "Other_Folder" "y.json"] rfl).1
